import Mathlib

/-!
Verification of the anytls-rs session-multiplexing core against its
natural-language specification.  The Rust source is shallowly embedded:
bytes are `Nat` values (< 256 on the wire), byte strings are `List Nat`,
machine-integer casts are explicit `%`-reductions, fallible operations
return `Option`, and the stateful session/stream code becomes explicit
state-passing functions.  Randomness (the padding RNG and the range draws
of the padding plan) is modelled by explicit draw parameters.
-/

namespace AnyTls

/-! ## Byte-level helpers (big-endian integer encodings, `bytes` crate) -/

/-- Big-endian 2-byte encoding, as written by `put_u16`. -/
def u16BE (n : Nat) : List Nat := [n / 256 % 256, n % 256]

/-- Big-endian 4-byte encoding, as written by `put_u32`. -/
def u32BE (n : Nat) : List Nat :=
  [n / 16777216 % 256, n / 65536 % 256, n / 256 % 256, n % 256]

/-! ## Frame codec (`src/proxy/session/frame.rs`) -/

def CMD_WASTE : Nat := 0
def CMD_SYN : Nat := 1
def CMD_PSH : Nat := 2
def CMD_FIN : Nat := 3
def CMD_SETTINGS : Nat := 4
def CMD_ALERT : Nat := 5
def CMD_UPDATE_PADDING_SCHEME : Nat := 6
def CMD_SYNACK : Nat := 7
def CMD_HEART_REQUEST : Nat := 8
def CMD_HEART_RESPONSE : Nat := 9
def CMD_SERVER_SETTINGS : Nat := 10

/-- `cmd(1) + sid(4) + length(2)` -/
def HEADER_OVERHEAD_SIZE : Nat := 7

/-- `Frame { cmd: u8, sid: u32, data: Bytes }`.  `cmd` and `sid` carry the
machine-width invariants `cmd < 256`, `sid < 2^32` as side conditions of the
theorems rather than in the type. -/
structure Frame where
  cmd : Nat
  sid : Nat
  data : List Nat
  deriving DecidableEq, Repr

/-- `Frame::to_bytes`: `put_u8(cmd); put_u32(sid); put_u16(data.len() as u16);
put_slice(data)`.  The `as u16` cast truncates the length modulo 2^16; the
function is total (it never returns an error). -/
def Frame.to_bytes (f : Frame) : List Nat :=
  [f.cmd % 256] ++ u32BE f.sid ++ u16BE (f.data.length % 65536) ++ f.data

/-- `Frame::from_bytes`: reads the 7-byte header off the front of the buffer,
then `length` payload bytes.  The Rust function returns just the `Frame`; the
model additionally returns the unconsumed suffix of the input (the cursor
position after `&buf[..length]`), and collapses the two `UnexpectedEof`
errors to `none`. -/
def Frame.from_bytes : List Nat → Option (Frame × List Nat)
  | b0 :: b1 :: b2 :: b3 :: b4 :: b5 :: b6 :: rest =>
    let length := b5 * 256 + b6
    if rest.length < length then
      none
    else
      some (⟨b0, b1 * 16777216 + b2 * 65536 + b3 * 256 + b4, rest.take length⟩,
            rest.drop length)
  | _ => none

/-! ## Text handling (`src/util/string_map.rs`)

Rust `&str`/`String` values are modelled as `List Char` and settings/scheme
bodies — UTF-8 text that the source immediately decodes — are modelled as
their decoded text.  `strBytes` recovers the wire bytes of such text; all
texts appearing in this system are ASCII, where UTF-8 bytes and code points
coincide. -/

/-- Model of a Rust string slice. -/
abbrev Str := List Char

/-- The UTF-8 bytes of an (ASCII) text. -/
def strBytes (s : Str) : List Nat := s.map Char.toNat

/-- Rust `str::split(c)`: splits at every occurrence of `c`, keeping empty
pieces (so the result is always non-empty). -/
def splitOnChar (c : Char) (s : Str) : List Str :=
  match s with
  | [] => [[]]
  | x :: xs =>
    let r := splitOnChar c xs
    if x = c then [] :: r
    else match r with
      | [] => [[x]]
      | y :: ys => (x :: y) :: ys

/-- Rust `str::find(c)` / `split_once(c)`: split at the first occurrence of
`c`, `none` when `c` does not occur. -/
def splitOnceChar (c : Char) : Str → Option (Str × Str)
  | [] => none
  | x :: xs =>
    if x = c then some ([], xs)
    else match splitOnceChar c xs with
      | none => none
      | some (a, b) => some (x :: a, b)

/-- Digit-string parser shared by the integer parsers: `none` on an empty
string or a non-digit character. -/
def parseNatChars : Str → Option Nat
  | [] => none
  | cs => cs.foldl
      (fun acc c => match acc with
        | none => none
        | some n => if c.isDigit then some (n * 10 + (c.toNat - 48)) else none)
      (some 0)

/-- Rust `str::parse::<u32>()` (overflow is an error).  The Rust parser also
accepts a leading `+`, which never occurs in this system's inputs. -/
def parseU32 (s : Str) : Option Nat :=
  match parseNatChars s with
  | none => none
  | some n => if n < 4294967296 then some n else none

/-- Rust `str::parse::<i64>()`: optional `-` sign, digits, bounds check. -/
def parseI64 (s : Str) : Option Int :=
  match s with
  | '-' :: rest =>
    match parseNatChars rest with
    | none => none
    | some n => if (n : Int) ≤ 9223372036854775808 then some (-(n : Int)) else none
  | _ =>
    match parseNatChars s with
    | none => none
    | some n => if n < 9223372036854775808 then some (n : Nat) else none

/-- `StringMap = HashMap<String, String>`, modelled as an association list
with unique keys (insertion replaces). -/
abbrev StringMap := List (Str × Str)

/-- `HashMap::insert`: replaces any previous binding of the key. -/
def smInsert (m : StringMap) (k v : Str) : StringMap :=
  (m.filter (fun p => p.1 ≠ k)) ++ [(k, v)]

/-- `HashMap::get`. -/
def smGet (m : StringMap) (k : Str) : Option Str :=
  match m with
  | [] => none
  | (k', v) :: rest => if k' = k then some v else smGet rest k

/-- `StringMap::from_bytes` ("key=value\n" format): split the body on `\n`,
skip empty lines and lines without `=`, split each remaining line at its
first `=` and insert. -/
def smFromString (s : Str) : StringMap :=
  (splitOnChar '\n' s).foldl
    (fun m line =>
      if line = [] then m
      else match splitOnceChar '=' line with
        | some (k, v) => smInsert m k v
        | none => m) []

/-! ## Padding factory (`src/proxy/padding/mod.rs`) -/

/-- `pub const CHECK_MARK: i32 = -1`. -/
def CHECK_MARK : Int := -1

/-- The Rust `as i32` cast (two's-complement truncation of an `i64`). -/
def toI32 (n : Int) : Int := (n + 2147483648) % 4294967296 - 2147483648

/-- The Rust `as u16` cast of an `i32` (low 16 bits of the two's-complement
representation, e.g. `-1 as u16 = 65535`). -/
def toU16 (n : Int) : Nat := (n % 65536).toNat

/-- The Rust `as usize` cast of an `i32` (sign-extension to 64 bits). -/
def usizeOfI32 (s : Int) : Nat := (s % 18446744073709551616).toNat

/-- Decimal rendering of a `Nat`, as Rust `u32::to_string`. -/
def natToChars (n : Nat) : Str := Nat.toDigits 10 n

/-- `PaddingFactory { scheme, raw_scheme, stop, md5 }`.  The scheme body is
kept as its decoded text; `md5` holds whatever hex digest was computed at
construction. -/
structure PaddingFactory where
  scheme : StringMap
  rawScheme : Str
  stop : Nat
  md5 : Str
  deriving DecidableEq, Repr

/-- `PaddingFactory::new`: parse the body as a settings map, fail when the
map is empty or `stop` is absent or not a `u32`.  The external `md5` crate's
digest is the parameter `md5fn`. -/
def PaddingFactory.new (md5fn : Str → Str) (raw : Str) : Option PaddingFactory :=
  let scheme := smFromString raw
  if scheme = [] then none
  else
    match smGet scheme "stop".data with
    | none => none
    | some s =>
      match parseU32 s with
      | none => none
      | some stop => some ⟨scheme, raw, stop, md5fn raw⟩

/-- One entry of `generate_record_payload_sizes`' loop body: `"c"` pushes
`CHECK_MARK`; `"lo-hi"` (split at the first `-`) parses both ends as `i64`,
normalizes `(min, max)`, and when both are positive pushes `min as i32` if
`min == max` and otherwise the drawn value `as i32`.  `draw` models
`rng.gen_range(min..=max)` for the entry at index `idx`. -/
def genEntry (draw : Nat → Int → Int → Int) (idx : Nat) (sRange : Str) : List Int :=
  if sRange = "c".data then [CHECK_MARK]
  else
    match splitOnceChar '-' sRange with
    | none => []
    | some (minStr, maxStr) =>
      match parseI64 minStr, parseI64 maxStr with
      | some a, some b =>
        let mn := min a b
        let mx := max a b
        if 0 < mn ∧ 0 < mx then
          if mn = mx then [toI32 mn] else [toI32 (draw idx mn mx)]
        else []
      | _, _ => []

/-- `PaddingFactory::generate_record_payload_sizes`: look up the packet
index as a decimal key and process the comma-separated entries in order. -/
def generate_record_payload_sizes (f : PaddingFactory)
    (draw : Nat → Int → Int → Int) (pkt : Nat) : List Int :=
  match smGet f.scheme (natToChars pkt) with
  | none => []
  | some s =>
    ((splitOnChar ',' s).enum.map (fun p => genEntry draw p.1 p.2)).flatten

/-- Modelled from the spec: `rng_vec` (`random_bytes(n)`) is called by the
session writer and the client authenticator but is not defined anywhere
under `src/`; the spec says it returns `n` bytes whose content may be
zeros or random, so the model returns `n` zero bytes. -/
def rng_vec (n : Nat) : List Nat := List.replicate n 0

/-! ## Session outbound path (`src/proxy/session/session.rs`)

The mutable session fields touched by the write path become an explicit
state record; each `conn.write_all(..)` call is one emitted chunk, so a
submission's wire output is a `List (List Nat)` of chunks in order. -/

/-- The session fields read or written by `write_conn` / `write_with_padding`
(`pkt_counter`, `send_padding`, `buffering`, `buffer`). -/
structure SessionState where
  pktCounter : Nat
  sendPadding : Bool
  buffering : Bool
  buffer : List Nat
  deriving DecidableEq, Repr

/-- The packet a `Size` step builds in the mixed padding-and-payload branch:
`put_u8(CMD_WASTE); put_u32(0); put_u16(padding_len as u16);
extend(remaining); extend(rng_vec(padding_len))` — the WASTE header comes
first, then the payload bytes, then the filler. -/
def wasteWithPayloadPacket (paddingLen : Nat) (remaining : List Nat) : List Nat :=
  [CMD_WASTE] ++ u32BE 0 ++ u16BE (paddingLen % 65536) ++ remaining ++ rng_vec paddingLen

/-- A pure-padding packet: WASTE header with length `size − 7` followed by
that many filler bytes (`size` total).  Rust would underflow for
`size < 7`; the plan sizes reaching this branch in the claims are ≥ 7, and
the model uses truncated subtraction there. -/
def pureWastePacket (size : Nat) : List Nat :=
  [CMD_WASTE] ++ u32BE 0 ++ u16BE ((size - HEADER_OVERHEAD_SIZE) % 65536) ++
    rng_vec (size - HEADER_OVERHEAD_SIZE)

/-- The `for size in pkt_sizes` loop of `Session::write_with_padding`:
returns the chunks passed to `conn.write_all` in order, and the payload
bytes still remaining after the plan.  `CHECK_MARK` stops the loop when no
payload remains and is skipped otherwise; a `Size` entry either carves
`size` payload bytes, or ends the payload inside a padded packet
(`padding_len = size − len − 7`, saturating), or emits a pure-padding
packet. -/
def padLoop : List Int → List Nat → List (List Nat) × List Nat
  | [], remaining => ([], remaining)
  | s :: rest, remaining =>
    if s = CHECK_MARK then
      if remaining = [] then ([], remaining)
      else padLoop rest remaining
    else
      let size := usizeOfI32 s
      if remaining.length > size then
        let r := padLoop rest (remaining.drop size)
        (remaining.take size :: r.1, r.2)
      else if remaining ≠ [] then
        let paddingLen := size - (remaining.length + HEADER_OVERHEAD_SIZE)
        let chunk :=
          if paddingLen > 0 then wasteWithPayloadPacket paddingLen remaining
          else remaining
        let r := padLoop rest []
        (chunk :: r.1, r.2)
      else
        let r := padLoop rest []
        (pureWastePacket size :: r.1, r.2)

/-- `Session::write_with_padding`: post-increment `pkt_counter`; while
`pkt < stop` run the plan loop and flush any remainder raw; otherwise clear
`send_padding` and write the data directly. -/
def write_with_padding (f : PaddingFactory) (draw : Nat → Int → Int → Int)
    (st : SessionState) (data : List Nat) : SessionState × List (List Nat) :=
  let pkt := st.pktCounter
  let st' := { st with pktCounter := st.pktCounter + 1 }
  if pkt < f.stop then
    let r := padLoop (generate_record_payload_sizes f draw pkt) data
    (st', r.1 ++ if r.2 = [] then [] else [r.2])
  else
    ({ st' with sendPadding := false }, [data])

/-- `Session::write_conn`: append to the in-memory buffer while `buffering`
is set (emitting nothing); otherwise write with padding while
`send_padding` is set; otherwise write the bytes directly. -/
def write_conn (f : PaddingFactory) (draw : Nat → Int → Int → Int)
    (st : SessionState) (data : List Nat) : SessionState × List (List Nat) :=
  if st.buffering then ({ st with buffer := st.buffer ++ data }, [])
  else if st.sendPadding then write_with_padding f draw st data
  else (st, [data])

/-- A sequence of `write_conn` submissions; returns the final state and the
per-submission chunk lists. -/
def runSubs (f : PaddingFactory) (draw : Nat → Int → Int → Int) :
    SessionState → List (List Nat) → SessionState × List (List (List Nat))
  | st, [] => (st, [])
  | st, d :: ds =>
    let r := write_conn f draw st d
    let r' := runSubs f draw r.1 ds
    (r'.1, r.2 :: r'.2)

/-- The write path of `Session::open_stream`: encode an empty SYN frame for
the new stream id, submit it through `write_conn`, then store `false` into
`buffering`.  (The buffer contents are not consulted.) -/
def open_stream_write (f : PaddingFactory) (draw : Nat → Int → Int → Int)
    (st : SessionState) (sid : Nat) : SessionState × List (List Nat) :=
  let syn := Frame.to_bytes ⟨CMD_SYN, sid, []⟩
  let r := write_conn f draw st syn
  ({ r.1 with buffering := false }, r.2)

/-! ## Session frame handlers (`src/proxy/session/session.rs`) -/

/-- `Session::handle_client_settings` (server side): parse the SETTINGS
body; when it carries a `padding-md5` different from the active scheme's
digest, send UPDATE_PADDING_SCHEME with the raw scheme body; when it
carries `v ≥ 2`, also send SERVER_SETTINGS `v=2`.  The result is the list
of frames passed to `write_control_frame`, in order. -/
def handle_client_settings (f : PaddingFactory) (body : Str) : List Frame :=
  let settings := smFromString body
  (match smGet settings "padding-md5".data with
   | some pm =>
     if pm ≠ f.md5 then [⟨CMD_UPDATE_PADDING_SCHEME, 0, strBytes f.rawScheme⟩]
     else []
   | none => []) ++
  (match smGet settings "v".data with
   | some vs =>
     match parseU32 vs with
     | some v => if 2 ≤ v then [⟨CMD_SERVER_SETTINGS, 0, strBytes "v=2".data⟩] else []
     | none => []
   | none => [])

/-- `Session::handle_update_padding_scheme` (client side): parse the body as
a scheme; on failure return an `InvalidData` error (`none`).  On success,
when the digests differ, log and send an acknowledgement frame — the
session's `padding` field is returned unchanged in every case, since the
source never replaces it. -/
def handle_update_padding_scheme (md5fn : Str → Str) (padding : PaddingFactory)
    (body : Str) : Option (PaddingFactory × List Frame) :=
  match PaddingFactory.new md5fn body with
  | some newPadding =>
    if newPadding.md5 ≠ padding.md5 then
      some (padding,
        [⟨CMD_UPDATE_PADDING_SCHEME, 0,
          strBytes ("Padding scheme updated to: ".data ++ newPadding.md5)⟩])
    else some (padding, [])
  | none => none

/-! ## Client authentication record (`src/bin/client/main.rs`) -/

/-- The padding length chosen by `send_authentication`:
`padding.generate_record_payload_sizes(0).get(0).copied().unwrap_or(30) as u16`. -/
def send_auth_padding_length (f : PaddingFactory)
    (draw : Nat → Int → Int → Int) : Nat :=
  toU16 ((generate_record_payload_sizes f draw 0).headD 30)

/-! ## Stream (`src/proxy/session/stream.rs`)

The tokio channels become explicit state: the receive channel is a queue of
payloads plus a closed flag for the dropped-sender case, and the outgoing
frame channel is a pending-frame queue, a receiver-alive flag and the
capacity (100).  Each `poll_*` becomes a function from stream state to a
poll result carrying the successor state. -/

/-- The `io::ErrorKind` values the stream paths produce. -/
inductive ErrKind where
  | brokenPipe
  deriving DecidableEq, Repr

/-- `Stream` state: receive side (`rx`, partial-read buffer, offset), send
side (`frame_tx` queue/capacity/receiver-alive), and the `closed` flag. -/
structure StreamState where
  id : Nat
  rxQueue : List (List Nat)
  rxClosed : Bool
  frameOpen : Bool
  frameQueue : List Frame
  frameCap : Nat
  readBuffer : Option (List Nat)
  readOffset : Nat
  closed : Bool
  deriving DecidableEq, Repr

/-- `Stream::mark_closed`. -/
def markClosed (st : StreamState) : StreamState := { st with closed := true }

/-- Result of `poll_read`: `ready bytes st'` is `Poll::Ready(Ok(()))` with
`bytes` put into the caller's buffer (`[]` means EOF when the caller asked
for more). -/
inductive ReadPoll where
  | ready (bytes : List Nat) (st : StreamState)
  | pending
  deriving DecidableEq, Repr

/-- `Stream::poll_read` with a caller buffer of capacity `cap`: a closed
stream returns ready with no bytes at once; otherwise the partial-read
buffer is drained first, then the receive channel is polled (a closed empty
channel marks the stream closed and returns EOF). -/
def poll_read (st : StreamState) (cap : Nat) : ReadPoll :=
  if st.closed then .ready [] st
  else
    match st.readBuffer with
    | some data =>
      let remaining := data.length - st.readOffset
      let toCopy := min remaining cap
      let bytes := (data.drop st.readOffset).take toCopy
      let newOffset := st.readOffset + toCopy
      if newOffset ≥ data.length then
        .ready bytes { st with readBuffer := none, readOffset := 0 }
      else
        .ready bytes { st with readOffset := newOffset }
    | none =>
      match st.rxQueue with
      | data :: rest =>
        let toCopy := min data.length cap
        if toCopy < data.length then
          .ready (data.take toCopy)
            { st with rxQueue := rest, readBuffer := some data, readOffset := toCopy }
        else
          .ready data { st with rxQueue := rest }
      | [] =>
        if st.rxClosed then .ready [] (markClosed st)
        else .pending

/-- Result of `poll_write`. -/
inductive WritePoll where
  | ready (n : Nat) (st : StreamState)
  | pending (st : StreamState)
  | err (e : ErrKind) (st : StreamState)
  deriving DecidableEq, Repr

/-- `Stream::poll_write`: fails with `BrokenPipe` when the stream is closed;
otherwise `try_send`s a PSH frame on the frame channel — `Closed` (receiver
dropped) fails with `BrokenPipe`, `Full` suspends, success queues the frame
and reports the full buffer length. -/
def poll_write (st : StreamState) (buf : List Nat) : WritePoll :=
  if st.closed then .err .brokenPipe st
  else if st.frameOpen = false then .err .brokenPipe st
  else if st.frameQueue.length ≥ st.frameCap then .pending st
  else .ready buf.length
    { st with frameQueue := st.frameQueue ++ [⟨CMD_PSH, st.id, buf⟩] }

/-- Result of `poll_shutdown`. -/
inductive ShutdownPoll where
  | ready (st : StreamState)
  | pending (st : StreamState)
  deriving DecidableEq, Repr

/-- `Stream::poll_shutdown`: a no-op when already closed; otherwise
`try_send` a FIN — success or `Closed` mark the stream closed, `Full`
suspends. -/
def poll_shutdown (st : StreamState) : ShutdownPoll :=
  if st.closed then .ready st
  else if st.frameOpen = false then .ready (markClosed st)
  else if st.frameQueue.length ≥ st.frameCap then .pending st
  else .ready (markClosed { st with frameQueue := st.frameQueue ++ [⟨CMD_FIN, st.id, []⟩] })

/-- `Drop for Stream`: best-effort FIN, then mark closed. -/
def dropStream (st : StreamState) : StreamState :=
  if st.closed then st
  else
    let st' :=
      if st.frameOpen = true ∧ st.frameQueue.length < st.frameCap then
        { st with frameQueue := st.frameQueue ++ [⟨CMD_FIN, st.id, []⟩] }
      else st
    markClosed st'

/-- A consumer-side operation on a stream. -/
inductive StreamOp where
  | read (cap : Nat)
  | write (buf : List Nat)
  | shutdown
  | dropOp
  deriving DecidableEq, Repr

/-- State reached after one stream operation (`pending` leaves the state
unchanged). -/
def applyOp (st : StreamState) : StreamOp → StreamState
  | .read cap =>
    match poll_read st cap with
    | .ready _ st' => st'
    | .pending => st
  | .write buf =>
    match poll_write st buf with
    | .ready _ st' => st'
    | .pending st' => st'
    | .err _ st' => st'
  | .shutdown =>
    match poll_shutdown st with
    | .ready st' => st'
    | .pending st' => st'
  | .dropOp => dropStream st

/-- State reached after a sequence of stream operations. -/
def applyOps (st : StreamState) (ops : List StreamOp) : StreamState :=
  ops.foldl applyOp st

/-- The stream the server materializes in the `CMD_SYN` branch of
`Session::handle_frame`: fresh channels of capacity 100, with the frame
channel's receiver (`_frame_rx`) dropped on the spot, so the stream starts
with `frameOpen = false`.  (The client's `open_stream`, by contrast, spawns
a task that keeps the receiver alive.) -/
def serverSynStream (sid : Nat) : StreamState :=
  { id := sid, rxQueue := [], rxClosed := false, frameOpen := false,
    frameQueue := [], frameCap := 100, readBuffer := none, readOffset := 0,
    closed := false }

/-! ## Concrete instances used for evaluations and witnesses -/

/-- A deterministic stand-in for the range RNG: always the lower bound. -/
def drawLo : Nat → Int → Int → Int := fun _ lo _ => lo

/-- A digest stand-in for the external `md5` crate: the decimal length of
the body (it distinguishes the concrete bodies used below, as real MD5
does). -/
def md5Len : Str → Str := fun s => natToChars s.length

/-- The first two lines of the default padding scheme. -/
def schemeText : Str := "stop=8\n0=30-30".data

/-- A factory over `schemeText` (packet-0 plan `[Size 30]`). -/
def fScheme : PaddingFactory := ⟨smFromString schemeText, schemeText, 8, "x".data⟩

/-- A factory whose scheme has no `"0"` key, so the packet-0 plan is empty. -/
def fStop1 : PaddingFactory := ⟨[("stop".data, "1".data)], "stop=1".data, 1, []⟩

/-- `PaddingFactory.new md5Len "stop=1"`. -/
def paddingW : PaddingFactory := ⟨[("stop".data, "1".data)], "stop=1".data, 1, natToChars 6⟩

/-- A factory state for the settings-handler witness. -/
def fMd : PaddingFactory := ⟨[], [], 8, "def".data⟩

/-- An encoded 3-byte PSH frame (10 bytes on the wire). -/
def psh3 : List Nat := Frame.to_bytes ⟨CMD_PSH, 1, [65, 66, 67]⟩

/-- A fresh client session write-state: counter 0, padding on, not buffering. -/
def st0 : SessionState := ⟨0, true, false, []⟩

/-- A session state whose next submission observes `pkt = 1 ≥ stop 1`. -/
def stStop : SessionState := ⟨1, true, false, []⟩

/-- A buffering session state with two bytes already deferred. -/
def stBuf : SessionState := ⟨0, true, true, [4, 4]⟩

/-- A closed stream that still holds two buffered payload bytes. -/
def stClosedBuf : StreamState := ⟨1, [], false, true, [], 100, some [65, 66], 0, true⟩

/-- A PSH frame with a 70000-byte payload. -/
def f70 : Frame := ⟨CMD_PSH, 1, List.replicate 70000 65⟩

/-! ## Shared lemmas -/

/-- The encoded length of a frame is always `7 + |payload|`. -/
theorem to_bytes_length (f : Frame) : (Frame.to_bytes f).length = 7 + f.data.length := by
  simp [Frame.to_bytes, u32BE, u16BE]; omega

/-- `handle_client_settings` is the padding-md5 block followed by the
version block. -/
theorem hcs_append (f : PaddingFactory) (body : Str) :
    handle_client_settings f body =
      (match smGet (smFromString body) "padding-md5".data with
       | some pm =>
         if pm ≠ f.md5 then [⟨CMD_UPDATE_PADDING_SCHEME, 0, strBytes f.rawScheme⟩]
         else []
       | none => []) ++
      (match smGet (smFromString body) "v".data with
       | some vs =>
         match parseU32 vs with
         | some v => if 2 ≤ v then [⟨CMD_SERVER_SETTINGS, 0, strBytes "v=2".data⟩] else []
         | none => []
       | none => []) := rfl

/-- With `send_padding` off and not buffering, a submission is written
directly and the state is untouched. -/
theorem write_conn_direct (f : PaddingFactory) (draw : Nat → Int → Int → Int)
    (st : SessionState) (d : List Nat) (h1 : st.sendPadding = false)
    (h2 : st.buffering = false) : write_conn f draw st d = (st, [d]) := by
  simp [write_conn, h1, h2]

/-- Direct writing persists across any submission sequence. -/
theorem runSubs_direct (f : PaddingFactory) (draw : Nat → Int → Int → Int) :
    ∀ (ds : List (List Nat)) (st : SessionState), st.sendPadding = false →
      st.buffering = false → runSubs f draw st ds = (st, ds.map (fun d => [d])) := by
  intro ds
  induction ds with
  | nil => intro st _ _; rfl
  | cons d ds ih =>
    intro st h1 h2
    simp [runSubs, write_conn_direct f draw st d h1 h2, ih st h1 h2]

/-- `poll_read` never touches the outgoing frame channel. -/
theorem applyOp_read_frames (st : StreamState) (cap : Nat) :
    (applyOp st (.read cap)).frameOpen = st.frameOpen ∧
    (applyOp st (.read cap)).frameQueue = st.frameQueue := by
  by_cases hc : st.closed = true
  · simp [applyOp, poll_read, hc]
  · rcases hb : st.readBuffer with _ | data
    · rcases hq : st.rxQueue with _ | ⟨d, rest⟩
      · by_cases hrx : st.rxClosed = true
        · simp [applyOp, poll_read, hc, hb, hq, hrx, markClosed]
        · simp [applyOp, poll_read, hc, hb, hq, hrx]
      · by_cases hlt : min d.length cap < d.length
        · simp [applyOp, poll_read, hc, hb, hq, hlt]
        · simp [applyOp, poll_read, hc, hb, hq, hlt]
    · by_cases hge : st.readOffset + min (data.length - st.readOffset) cap ≥ data.length
      · simp [applyOp, poll_read, hc, hb, hge]
      · simp [applyOp, poll_read, hc, hb, hge]

/-- When the frame channel's receiver is gone, `poll_write` fails with
`BrokenPipe` (whether or not the stream is closed) and changes nothing. -/
theorem poll_write_closedChannel (st : StreamState) (buf : List Nat)
    (h1 : st.frameOpen = false) : poll_write st buf = .err .brokenPipe st := by
  unfold poll_write
  rw [h1]
  simp

/-- A dead frame channel with an empty queue stays that way through any
single stream operation. -/
theorem applyOp_inv (st : StreamState) (op : StreamOp) (h1 : st.frameOpen = false)
    (h2 : st.frameQueue = []) :
    (applyOp st op).frameOpen = false ∧ (applyOp st op).frameQueue = [] := by
  cases op with
  | read cap =>
    have hp := applyOp_read_frames st cap
    rw [hp.1, hp.2]
    exact ⟨h1, h2⟩
  | write buf =>
    dsimp only [applyOp]
    rw [poll_write_closedChannel st buf h1]
    exact ⟨h1, h2⟩
  | shutdown =>
    dsimp only [applyOp]
    by_cases hc : st.closed = true
    · rw [show poll_shutdown st = .ready st by unfold poll_shutdown; rw [if_pos hc]]
      exact ⟨h1, h2⟩
    · rw [show poll_shutdown st = .ready (markClosed st) by
        unfold poll_shutdown; rw [if_neg hc, if_pos h1]]
      exact ⟨h1, h2⟩
  | dropOp =>
    dsimp only [applyOp]
    unfold dropStream
    by_cases hc : st.closed = true
    · rw [if_pos hc]; exact ⟨h1, h2⟩
    · rw [if_neg hc, if_neg (by simp [h1])]
      exact ⟨h1, h2⟩

/-- A dead frame channel with an empty queue stays that way through any
sequence of stream operations. -/
theorem applyOps_inv (ops : List StreamOp) :
    ∀ st : StreamState, st.frameOpen = false → st.frameQueue = [] →
      (applyOps st ops).frameOpen = false ∧ (applyOps st ops).frameQueue = [] := by
  induction ops with
  | nil => intro st h1 h2; exact ⟨h1, h2⟩
  | cons op ops ih =>
    intro st h1 h2
    have h := applyOp_inv st op h1 h2
    exact ih (applyOp st op) h.1 h.2

/-! ## Claims -/

/-- Claim C1 (evaluated at a failing input).  On packet 0 with plan
`[Size 30]` and 10 bytes of remaining frame data (`pad = 30 − 10 − 7 = 13
> 0`), the step emits exactly 30 bytes, but they are the 7-byte WASTE
header first, then the data, then the 13 filler bytes — not the data
followed by a complete WASTE frame, whatever that frame's payload: the
receiver would consume a prefix of the real data as WASTE payload. -/
theorem c1_padding_step_waste_header_first :
    (write_with_padding fScheme drawLo st0 psh3 =
      ({ st0 with pktCounter := 1 }, [wasteWithPayloadPacket 13 psh3]) ∧
    (wasteWithPayloadPacket 13 psh3).length = 30 ∧
    wasteWithPayloadPacket 13 psh3 = [0, 0, 0, 0, 0, 0, 13] ++ psh3 ++ rng_vec 13) ∧
    (∀ pad : List Nat,
      wasteWithPayloadPacket 13 psh3 ≠ psh3 ++ Frame.to_bytes ⟨CMD_WASTE, 0, pad⟩) := by
  refine ⟨⟨by decide, by decide, by decide⟩, ?_⟩
  intro pad h
  rw [show wasteWithPayloadPacket 13 psh3 = 0 :: ([0, 0, 0, 0, 0, 13] ++ psh3 ++ rng_vec 13)
        from rfl,
      show psh3 = 2 :: [0, 0, 0, 1, 0, 3, 65, 66, 67] from rfl] at h
  simp at h

/-- Claim C2 (evaluated against the code).  While `buffering` is set, the
write path of `open_stream` appends the encoded SYN to the in-memory
buffer, emits nothing to the transport, and then clears the buffering
flag: the buffered bytes are never prepended to the SYN nor submitted to
the padded writer. -/
theorem c2_open_stream_buffers_syn_without_flush (f : PaddingFactory)
    (draw : Nat → Int → Int → Int) (st : SessionState) (sid : Nat)
    (hb : st.buffering = true) :
    open_stream_write f draw st sid =
      ({ st with buffer := st.buffer ++ Frame.to_bytes ⟨CMD_SYN, sid, []⟩,
                 buffering := false }, []) := by
  simp [open_stream_write, write_conn, hb]

/-- Witness for C2: a concrete buffering state; the SYN joins the buffer
and no chunk reaches the transport. -/
theorem c2_open_stream_buffers_syn_without_flush_witness :
    open_stream_write fStop1 drawLo stBuf 1 =
      ({ stBuf with buffer := stBuf.buffer ++ Frame.to_bytes ⟨CMD_SYN, 1, []⟩,
                    buffering := false }, []) :=
  c2_open_stream_buffers_syn_without_flush fStop1 drawLo stBuf 1 rfl

/-- Claim C3 (evaluated at the failing input).  Encoding a PSH frame with a
70000-byte payload does not fail: `to_bytes` is total, writes the length
field as `70000 mod 2^16 = 4464` (bytes `17, 112`), and appends all 70000
payload bytes, yielding 70007 bytes. -/
theorem c3_encode_oversize_truncates_silently :
    Frame.to_bytes f70 = [2, 0, 0, 0, 1, 17, 112] ++ List.replicate 70000 65 ∧
    (Frame.to_bytes f70).length = 70007 := by
  constructor
  · simp only [Frame.to_bytes, f70, u32BE, u16BE, List.length_replicate, CMD_PSH,
      List.cons_append, List.nil_append]
  · rw [to_bytes_length]
    have hd : f70.data = List.replicate 70000 65 := rfl
    rw [hd, List.length_replicate]

/-- Claim C4: for every frame with `cmd ≤ 255`, `sid < 2^32` and payload of
length ≤ 65535, decoding the encoding returns an equal frame and consumes
exactly the encoded bytes, leaving nothing over. -/
theorem c4_frame_roundtrip (f : Frame) (hc : f.cmd ≤ 255) (hs : f.sid < 4294967296)
    (hl : f.data.length ≤ 65535) :
    Frame.from_bytes (Frame.to_bytes f) = some (f, []) := by
  obtain ⟨c, s, d⟩ := f
  simp only [Frame.to_bytes, u32BE, u16BE, List.cons_append, List.nil_append,
    List.singleton_append] at *
  simp only [Frame.from_bytes]
  have hlen : (d.length % 65536) / 256 % 256 * 256 + d.length % 65536 % 256 = d.length := by
    omega
  rw [hlen]
  simp only [lt_irrefl, if_neg (lt_irrefl d.length), List.take_length, List.drop_length]
  have hc' : c % 256 = c := Nat.mod_eq_of_lt (by omega)
  have hs' : s / 16777216 % 256 * 16777216 + s / 65536 % 256 * 65536 +
      s / 256 % 256 * 256 + s % 256 = s := by
    omega
  simp [hc', hs']

/-- Witness for C4 at a concrete PSH frame. -/
theorem c4_frame_roundtrip_witness :
    Frame.from_bytes (Frame.to_bytes ⟨2, 7, [65, 66, 67]⟩) = some (⟨2, 7, [65, 66, 67]⟩, []) :=
  c4_frame_roundtrip ⟨2, 7, [65, 66, 67]⟩ (by decide) (by decide) (by decide)

/-- Claim C5: a non-buffering submission that observes `pkt_counter ≥ stop`
clears `send_padding` and is written directly, and every later submission
is also written directly ([data] verbatim, no plan consulted) with
`send_padding` remaining false. -/
theorem c5_send_padding_latches_off (f : PaddingFactory)
    (draw : Nat → Int → Int → Int) (st : SessionState) (d : List Nat)
    (ds : List (List Nat)) (hb : st.buffering = false) (hsp : st.sendPadding = true)
    (hge : f.stop ≤ st.pktCounter) :
    (write_conn f draw st d).1.sendPadding = false ∧
    (write_conn f draw st d).2 = [d] ∧
    (runSubs f draw (write_conn f draw st d).1 ds).1.sendPadding = false ∧
    (runSubs f draw (write_conn f draw st d).1 ds).2 = ds.map (fun x => [x]) := by
  have hkey : write_conn f draw st d =
      ({ st with pktCounter := st.pktCounter + 1, sendPadding := false }, [d]) := by
    simp [write_conn, hb, hsp, write_with_padding, Nat.not_lt.mpr hge]
  rw [hkey]
  dsimp only
  have hrun := runSubs_direct f draw ds
    ({ st with pktCounter := st.pktCounter + 1, sendPadding := false }) rfl hb
  rw [hrun]
  exact ⟨rfl, rfl, rfl, rfl⟩

/-- Witness for C5: a session at `pkt_counter = 1` with `stop = 1`; the
triggering submission and both later submissions go out verbatim. -/
theorem c5_send_padding_latches_off_witness :
    (write_conn fStop1 drawLo stStop [7]).1.sendPadding = false ∧
    (write_conn fStop1 drawLo stStop [7]).2 = [[7]] ∧
    (runSubs fStop1 drawLo (write_conn fStop1 drawLo stStop [7]).1 [[8], [9]]).1.sendPadding
      = false ∧
    (runSubs fStop1 drawLo (write_conn fStop1 drawLo stStop [7]).1 [[8], [9]]).2
      = [[[8]], [[9]]] :=
  c5_send_padding_latches_off fStop1 drawLo stStop [7] [[8], [9]] rfl rfl (by decide)

/-- Claim C6: when the SETTINGS body carries a `padding-md5` value, the
server's handler emits an UPDATE_PADDING_SCHEME frame iff that value
differs from the active scheme's digest, and any such frame carries the
raw scheme body. -/
theorem c6_update_scheme_iff_digest_mismatch (f : PaddingFactory) (body : Str) (pm : Str)
    (h : smGet (smFromString body) "padding-md5".data = some pm) :
    ((∃ fr ∈ handle_client_settings f body, fr.cmd = CMD_UPDATE_PADDING_SCHEME) ↔
      pm ≠ f.md5) ∧
    ∀ fr ∈ handle_client_settings f body,
      fr.cmd = CMD_UPDATE_PADDING_SCHEME → fr.data = strBytes f.rawScheme := by
  have hv : ∀ fr ∈ (match smGet (smFromString body) "v".data with
       | some vs =>
         match parseU32 vs with
         | some v =>
           if 2 ≤ v then [(⟨CMD_SERVER_SETTINGS, 0, strBytes "v=2".data⟩ : Frame)] else []
         | none => []
       | none => []), fr.cmd = CMD_SERVER_SETTINGS := by
    intro fr hfr
    rcases hg : smGet (smFromString body) "v".data with _ | vs <;>
      rw [hg] at hfr <;> dsimp only at hfr
    · simp at hfr
    · rcases hp : parseU32 vs with _ | v <;> rw [hp] at hfr <;> dsimp only at hfr
      · simp at hfr
      · split at hfr
        · simp at hfr
          rw [hfr]
        · simp at hfr
  rw [hcs_append, h]
  dsimp only
  constructor
  · constructor
    · rintro ⟨fr, hfr, hcmd⟩
      rw [List.mem_append] at hfr
      rcases hfr with hfr | hfr
      · split at hfr
        · assumption
        · simp at hfr
      · have h10 := hv fr hfr
        rw [h10] at hcmd
        simp [CMD_SERVER_SETTINGS, CMD_UPDATE_PADDING_SCHEME] at hcmd
    · intro hne
      refine ⟨⟨CMD_UPDATE_PADDING_SCHEME, 0, strBytes f.rawScheme⟩, ?_, rfl⟩
      rw [List.mem_append]
      left
      simp [hne]
  · intro fr hfr hcmd
    rw [List.mem_append] at hfr
    rcases hfr with hfr | hfr
    · split at hfr
      · simp at hfr
        rw [hfr]
      · simp at hfr
    · have h10 := hv fr hfr
      rw [h10] at hcmd
      simp [CMD_SERVER_SETTINGS, CMD_UPDATE_PADDING_SCHEME] at hcmd

/-- Witness for C6 at a concrete mismatching digest. -/
theorem c6_update_scheme_iff_digest_mismatch_witness :
    ((∃ fr ∈ handle_client_settings fMd "padding-md5=abc".data,
        fr.cmd = CMD_UPDATE_PADDING_SCHEME) ↔ "abc".data ≠ fMd.md5) ∧
    ∀ fr ∈ handle_client_settings fMd "padding-md5=abc".data,
      fr.cmd = CMD_UPDATE_PADDING_SCHEME → fr.data = strBytes fMd.rawScheme :=
  c6_update_scheme_iff_digest_mismatch fMd "padding-md5=abc".data "abc".data (by decide)

/-- Claim C7 (evaluated at a failing input).  The client handler, given a
valid scheme body whose digest differs from the active one, succeeds and
sends an acknowledgement frame but returns the active padding factory
unchanged — afterwards the active digest still differs from the received
body's digest, so the scheme was not replaced. -/
theorem c7_scheme_never_replaced :
    handle_update_padding_scheme md5Len paddingW "stop=10".data =
      some (paddingW,
        [⟨CMD_UPDATE_PADDING_SCHEME, 0,
          strBytes ("Padding scheme updated to: ".data ++ natToChars 7)⟩]) ∧
    paddingW.md5 ≠ md5Len "stop=10".data := by decide

/-- Counterexample to claim C8 as stated: a scheme with no `"0"` key gives
an empty packet-0 plan, and the client then picks `P = 30` (the
`unwrap_or(30)` default), not `P = 0`. -/
theorem c8_counterexample_empty_plan_gives_30 :
    generate_record_payload_sizes fStop1 drawLo 0 = [] ∧
    send_auth_padding_length fStop1 drawLo = 30 ∧ (30 : Nat) ≠ 0 := by decide

/-- Claim C8 as amended: `P` is the first packet-0 plan value cast to
`u16` — `Size s` gives `s` (for `0 ≤ s < 2^16`), a leading check mark gives
`65535` (`-1 as u16`), and an empty plan gives the default `30`. -/
theorem c8_amended_first_plan_value_as_u16 (f : PaddingFactory)
    (draw : Nat → Int → Int → Int) :
    (generate_record_payload_sizes f draw 0 = [] →
      send_auth_padding_length f draw = 30) ∧
    (∀ rest, generate_record_payload_sizes f draw 0 = CHECK_MARK :: rest →
      send_auth_padding_length f draw = 65535) ∧
    (∀ s rest, generate_record_payload_sizes f draw 0 = s :: rest → 0 ≤ s → s < 65536 →
      send_auth_padding_length f draw = s.toNat) := by
  unfold send_auth_padding_length
  refine ⟨?_, ?_, ?_⟩
  · intro h; rw [h]; decide
  · intro rest h; rw [h, List.headD_cons]; decide
  · intro s rest h h0 h1
    rw [h, List.headD_cons]
    show toU16 s = s.toNat
    unfold toU16
    rw [Int.emod_eq_of_lt h0 h1]

/-- Witness for amended C8: the default scheme's packet-0 plan `[Size 30]`
gives `P = 30`. -/
theorem c8_amended_first_plan_value_as_u16_witness :
    generate_record_payload_sizes fScheme drawLo 0 = 30 :: [] ∧
    send_auth_padding_length fScheme drawLo = (30 : Int).toNat :=
  ⟨by decide,
   (c8_amended_first_plan_value_as_u16 fScheme drawLo).2.2 30 []
     (by decide) (by decide) (by decide)⟩

/-- Counterexample to claim C9 as stated: a closed stream holding two
buffered payload bytes returns a 0-byte read (EOF) immediately instead of
draining the buffer first. -/
theorem c9_counterexample_closed_read_skips_buffer :
    poll_read stClosedBuf 10 = .ready [] stClosedBuf ∧
    stClosedBuf.readBuffer = some [65, 66] ∧ ([] : List Nat) ≠ [65, 66] := by decide

/-- Claim C9 as amended: after a stream is closed, every read returns EOF
immediately (buffered payload is not drained), and every write fails with
`BrokenPipe`. -/
theorem c9_amended_closed_read_eof_write_fails (st : StreamState) (cap : Nat)
    (buf : List Nat) (h : st.closed = true) :
    poll_read st cap = .ready [] st ∧ poll_write st buf = .err .brokenPipe st := by
  simp [poll_read, poll_write, h]

/-- Witness for amended C9 on the concrete closed stream. -/
theorem c9_amended_closed_read_eof_write_fails_witness :
    poll_read stClosedBuf 10 = .ready [] stClosedBuf ∧
    poll_write stClosedBuf [1, 2] = .err .brokenPipe stClosedBuf :=
  c9_amended_closed_read_eof_write_fails stClosedBuf 10 [1, 2] rfl

/-- Claim C10: a server-materialized SYN stream starts with its frame
channel's receiver dropped; after any sequence of consumer operations its
outgoing frame queue is still empty (no PSH or FIN ever reaches the
transport) and any write fails with `BrokenPipe`. -/
theorem c10_server_stream_writes_broken_pipe (sid : Nat) (ops : List StreamOp)
    (buf : List Nat) :
    (applyOps (serverSynStream sid) ops).frameQueue = [] ∧
    poll_write (applyOps (serverSynStream sid) ops) buf =
      .err .brokenPipe (applyOps (serverSynStream sid) ops) := by
  have h := applyOps_inv ops (serverSynStream sid) rfl rfl
  exact ⟨h.2, poll_write_closedChannel _ buf h.1⟩

end AnyTls
